import Mathlib

/-!
# Verification of the KYC verifier ML service scoring logic

Shallow embedding of the scoring, fusion and validation logic of the
`kyc-verifer-ml` repository (`src/ml-service/src`), together with theorems
settling the specification claims about it.

Scores are modelled as rationals.  Python dictionaries whose key sets vary
between code paths are modelled as structures with `Option`-typed fields:
`none` means the key is absent from the dictionary, `some v` that the key is
present with value `v`.
-/

namespace KycVerifier

/-! ## Fusion engine (`src/api/routes.py`, `verify_kyc`) -/

/-- `overall_score` computation of `verify_kyc` (routes.py lines 296-301):
`liveness*0.3 + match*0.4 + quality*0.2 + (1 - fraud)*0.1`. -/
def overallScore (liveness_score match_score document_quality_score fraud_score : ℚ) : ℚ :=
  liveness_score * (3/10) + match_score * (4/10) +
    document_quality_score * (2/10) + (1 - fraud_score) * (1/10)

/-- Status classification of `verify_kyc` (routes.py lines 303-309), an
if/elif/else chain evaluated in order. -/
def kycStatus (liveness_score match_score overall_score : ℚ) : String :=
  if 8/10 ≤ overall_score ∧ 7/10 ≤ liveness_score ∧ 6/10 ≤ match_score then "approved"
  else if 6/10 ≤ overall_score then "manual_review"
  else "rejected"

/-- `fraud_score = min(len(fraud_indicators) / 10.0, 1.0)` (routes.py line 293). -/
def fraudScoreOfCount (n : ℕ) : ℚ :=
  min ((n : ℚ) / 10) 1

/-- The list of one-character strings making up `s`.  Python
`list.extend(s)` on a string `s` appends exactly these elements. -/
def charIndicators (s : String) : List String :=
  s.data.map (fun c => String.mk [c])

/-- The value of the Python expression `liveness_result.get('spoof_type', [])`
followed by `fraud_indicators.extend(...)` (routes.py line 290), acting on an
initially empty list.  The argument distinguishes the three dictionary shapes:
`none` = key absent (degraded/error dictionaries, `.get` default `[]`),
`some none` = key present holding Python `None` (no spoof detected;
`extend(None)` raises `TypeError`), `some (some s)` = key present holding the
string `s` (extended character by character).  The result `none` models the
raised exception. -/
def extendSpoof (spoof_type : Option (Option String)) : Option (List String) :=
  match spoof_type with
  | none => some []
  | some none => none
  | some (some s) => some (charIndicators s)

/-- Liveness result dictionary as read by the fusion step.  Fields map to the
keys of the dictionaries produced by `detect_liveness` (success and error
paths) and the degraded replacement in `verify_kyc`. -/
structure PyLivenessResult where
  liveness_score : ℚ
  is_live : Bool
  confidence : Option ℚ
  spoof_type : Option (Option String)
  fraud_indicators : Option (List String)
  error : Option String
  deriving Repr, DecidableEq

/-- Face-match result dictionary as read by the fusion step. -/
structure PyFaceMatchResult where
  match_score : ℚ
  is_match : Bool
  confidence : Option ℚ
  fraud_indicators : Option (List String)
  error : Option String
  deriving Repr, DecidableEq

/-- Document result dictionary as read by the fusion step. -/
structure PyDocumentResult where
  is_valid : Bool
  quality_score : Option ℚ
  fraud_indicators : Option (List String)
  error : Option String
  deriving Repr, DecidableEq

/-- The fields of `KYCVerificationResponse` computed by the fusion step. -/
structure FusionVerdict where
  liveness_score : ℚ
  match_score : ℚ
  fraud_score : ℚ
  document_quality_score : ℚ
  overall_score : ℚ
  status : String
  reasons : List String
  confidence : ℚ
  deriving Repr, DecidableEq

/-- The fusion step of `verify_kyc` (routes.py lines 283-338) applied to the
three analyzer results.  Returns `none` when the step raises
(`fraud_indicators.extend(None)`, a `TypeError` turned into an
`HTTPException`), `some verdict` otherwise. -/
def fuseResults (l : PyLivenessResult) (f : PyFaceMatchResult) (d : PyDocumentResult) :
    Option FusionVerdict :=
  match extendSpoof l.spoof_type with
  | none => none
  | some spoofInd =>
    let fraud_indicators := spoofInd ++ d.fraud_indicators.getD []
    let fraud_score := fraudScoreOfCount fraud_indicators.length
    let quality := d.quality_score.getD 0
    let overall := overallScore l.liveness_score f.match_score quality fraud_score
    some {
      liveness_score := l.liveness_score
      match_score := f.match_score
      fraud_score := fraud_score
      document_quality_score := quality
      overall_score := overall
      status := kycStatus l.liveness_score f.match_score overall
      reasons := fraud_indicators
      confidence := min (l.confidence.getD 0) (f.confidence.getD 0) }

/-- The degraded replacement dictionary substituted by `verify_kyc` for a
failed analyzer task (routes.py lines 269-279), viewed through the liveness
keys: `liveness_score` and `is_live` are present, `confidence` and
`spoof_type` are absent, `fraud_indicators` holds the single entry
`verification_failed`. -/
def degradedLiveness : PyLivenessResult :=
  { liveness_score := 0, is_live := false, confidence := none,
    spoof_type := none, fraud_indicators := some ["verification_failed"],
    error := none }

/-- The degraded replacement dictionary viewed through the face-match keys. -/
def degradedFaceMatch : PyFaceMatchResult :=
  { match_score := 0, is_match := false, confidence := none,
    fraud_indicators := some ["verification_failed"], error := none }

/-- The degraded replacement dictionary viewed through the document keys:
`quality_score` is absent. -/
def degradedDocument : PyDocumentResult :=
  { is_valid := false, quality_score := none,
    fraud_indicators := some ["verification_failed"], error := none }

/-- The error dictionary returned by `detect_liveness` on an internal
exception (liveness_detection.py lines 158-163): score 0, confidence 0, an
`error` message, and no other keys (in particular no indicator list and no
`spoof_type`). -/
def livenessErrorResult (msg : String) : PyLivenessResult :=
  { liveness_score := 0, is_live := false, confidence := some 0,
    spoof_type := none, fraud_indicators := none, error := some msg }

/-- The error dictionary returned by `verify_face_match` on any of its three
failure paths (face_recognition.py lines 188-193, 204-209, 242-247): score 0,
confidence 0, an `error` message, and no indicator list. -/
def faceMatchErrorResult (msg : String) : PyFaceMatchResult :=
  { match_score := 0, is_match := false, confidence := some 0,
    fraud_indicators := none, error := some msg }

/-- The error dictionary returned by `verify_document` on an internal
exception (document_verification.py lines 142-146): `is_valid` false, the
indicator list `[verification_failed]`, an `error` message, and no
`quality_score` key. -/
def documentErrorResult (msg : String) : PyDocumentResult :=
  { is_valid := false, quality_score := none,
    fraud_indicators := some ["verification_failed"], error := some msg }

/-! ## Liveness analyzer (`src/models/liveness_detection.py`) -/

/-- Inputs of one `detect_liveness` run.  The four detector scores are the
values returned by the analysis helpers; `challengeProvided` is the Python
truth value of `challenge_type and temporal_data`; `analyzedChallenge` is the
value `_analyze_challenge` returns when that condition holds; `modelLoaded`
is `self.model is not None` (true after a successful `_initialize_model`);
`modelScore` is the value returned by `_model_based_detection` (its internal
fallback being 0.5). -/
structure LivenessInputs where
  texture : ℚ
  color : ℚ
  edge : ℚ
  reflection : ℚ
  challengeProvided : Bool
  analyzedChallenge : ℚ
  modelLoaded : Bool
  modelScore : ℚ
  deriving Repr, DecidableEq

/-- Challenge score (liveness_detection.py lines 104-109): 0.5 unless both a
challenge type and temporal data are supplied. -/
def challengeScore (i : LivenessInputs) : ℚ :=
  if i.challengeProvided then i.analyzedChallenge else 1/2

/-- The five-entry score list combined by `detect_liveness`
(liveness_detection.py lines 112-118). -/
def livenessScoreList (i : LivenessInputs) : List ℚ :=
  [i.texture, i.color, i.edge, 1 - i.reflection, challengeScore i]

/-- The fixed weights of `detect_liveness` (liveness_detection.py line 119). -/
def livenessWeights : List ℚ :=
  [25/100, 20/100, 20/100, 15/100, 20/100]

/-- `sum(s * w for s, w in zip(scores, weights))` (liveness_detection.py
line 121). -/
def livenessWeightedSum (i : LivenessInputs) : ℚ :=
  (List.zipWith (fun s w => s * w) (livenessScoreList i) livenessWeights).sum

/-- The final liveness score of `detect_liveness` (liveness_detection.py
lines 121-126): the weighted sum, averaged with the model score when the CNN
model is loaded. -/
def detectLivenessScore (i : LivenessInputs) : ℚ :=
  if i.modelLoaded then (livenessWeightedSum i + i.modelScore) / 2
  else livenessWeightedSum i

/-- `is_live = liveness_score >= 0.7` (liveness_detection.py line 141). -/
def detectLivenessIsLive (i : LivenessInputs) : Bool :=
  7/10 ≤ detectLivenessScore i

/-- `_detect_spoof_type` (liveness_detection.py lines 393-421): a priority
chain over the four detector scores; `none` models Python `None`. -/
def detectSpoofType (texture_score color_score edge_score reflection_score : ℚ) :
    Option String :=
  if edge_score < 3/10 ∧ texture_score < 3/10 then some "printed_photo"
  else if 1/10 < reflection_score then some "screen_replay"
  else if color_score < 3/10 then some "mask"
  else if 8/10 < texture_score ∧ 8/10 < color_score then some "3d_mask"
  else none

/-! ## Ensemble confidence (`_calculate_confidence`) and anti-spoof
aggregation (`src/models/anti_spoof.py`, `detect_spoof`) -/

/-- Arithmetic mean of a list of rationals (`np.mean`); 0 on the empty list
by the rational convention `x / 0 = 0`. -/
def listMean (xs : List ℚ) : ℚ :=
  xs.sum / xs.length

/-- Population variance of a list of rationals (`np.var`). -/
def listVariance (xs : List ℚ) : ℚ :=
  ((xs.map (fun x => (x - listMean xs) ^ 2)).sum) / xs.length

/-- `_calculate_confidence` (liveness_detection.py lines 423-433):
`max(1 - min(variance * 5, 1), 0)`. -/
def calculateConfidence (xs : List ℚ) : ℚ :=
  max (1 - min (listVariance xs * 5) 1) 0

/-- The confidence reported by the anti-spoof ensemble (anti_spoof.py lines
75 and 87): the mean of the detector scores. -/
def antiSpoofConfidence (xs : List ℚ) : ℚ :=
  listMean xs

/-- Python `max(iterable, key=k)`: the first element of the iteration, in
iteration order, whose key no later element strictly exceeds.  `none` on the
empty iteration (Python raises `ValueError` there; the code guards against
it). -/
def pyMaxBy (key : String → ℕ) : List String → Option String
  | [] => none
  | x :: xs => some (xs.foldl (fun best y => if key best < key y then y else best) x)

/-- Aggregate spoof label of `detect_spoof` (anti_spoof.py lines 79-82):
`max(set(indicators), key=indicators.count)` when `indicators` is nonempty,
else `None`.  `indicators` lists the labels of the flagged outcomes in
detector-list order; `setOrder` is the iteration order of the Python set
`set(indicators)`, which the language leaves unspecified — it is passed as an
explicit parameter, constrained to enumerate exactly the distinct elements of
`indicators`. -/
def aggregateSpoofLabel (indicators setOrder : List String) : Option String :=
  if indicators.isEmpty then none
  else pyMaxBy (fun l => indicators.count l) setOrder

/-- Modelled from the spec sentence under test (for comparison with
`aggregateSpoofLabel`): most frequent flagged label, ties broken by first
occurrence in detector-list order.  Scanning `indicators` itself in order
with a strict-improvement fold realises exactly that tie-break. -/
def claimedAggregateLabel (indicators : List String) : Option String :=
  if indicators.isEmpty then none
  else pyMaxBy (fun l => indicators.count l) indicators

/-! ## Document validation (`src/models/document_verification.py`,
`_validate_document`) -/

/-- The extracted-field facts `_validate_document` consults.  `name` and
`document_number` record whether the corresponding keys are present in
`extracted_data`; `dob` models the `date_of_birth` entry: absent, present but
unparseable by `_parse_date` (the check is then skipped by `except: pass`),
or parsed to a time point, modelled as an integer timestamp compared against
`now`. -/
inductive DobField
  | absent
  | unparseable
  | parsed (t : ℤ)
  deriving Repr, DecidableEq

/-- Presence of the fields of `extracted_data` read by `_validate_document`. -/
structure ExtractedData where
  name : Bool
  document_number : Bool
  dob : DobField
  deriving Repr, DecidableEq

/-- The `fields` lists of `self.document_patterns`
(document_verification.py lines 20-42), `none` for unknown types. -/
def documentPatternFields : String → Option (List String)
  | "passport" =>
      some ["document_number", "surname", "given_names", "nationality", "dob",
            "expiry", "sex"]
  | "driver_license" =>
      some ["license_number", "name", "address", "dob", "expiry", "class"]
  | "id_card" =>
      some ["id_number", "name", "dob", "expiry", "address"]
  | _ => none

/-- The critical indicator list of `_validate_document`
(document_verification.py lines 542-547). -/
def criticalIndicators : List String :=
  ["expired_document", "missing_document_number", "missing_name",
   "possible_tampering"]

/-- The required-field check of `_validate_document` (document_verification.py
lines 558-562): only the fields `name` and `document_number` are tested, and
only when they occur in the pattern table's field list for the type. -/
def requiredFieldMissing (document_type : String) (e : ExtractedData) : Bool :=
  match documentPatternFields document_type with
  | none => false
  | some fs =>
      (fs.contains "name" && !e.name) ||
      (fs.contains "document_number" && !e.document_number)

/-- The date-of-birth rejection condition of `_validate_document`
(document_verification.py lines 565-571): the check fires only when the
field is present and parseable and the parsed time is after `now`; parse
failures are swallowed by `except: pass`. -/
def dobInFuture (dob : DobField) (now : ℤ) : Bool :=
  match dob with
  | DobField.parsed t => now < t
  | _ => false

/-- `_validate_document` (document_verification.py lines 532-577), with the
current time `now` passed explicitly for the `datetime.now()` comparison. -/
def validateDocument (e : ExtractedData) (fraud_indicators : List String)
    (quality_score : ℚ) (document_type : String) (now : ℤ) : Bool :=
  if criticalIndicators.any (fun c => fraud_indicators.contains c) then false
  else if quality_score < 4/10 then false
  else if requiredFieldMissing document_type e then false
  else if dobInFuture e.dob now then false
  else fraud_indicators.length ≤ 2

/-- Modelled from the spec sentence under test (for comparison with
`validateDocument`): invalid iff a critical indicator is present, or the
quality score is below 0.4, or a required field is absent; otherwise valid
iff at most two indicators. -/
def claimedValidDocument (e : ExtractedData) (fraud_indicators : List String)
    (quality_score : ℚ) (document_type : String) : Bool :=
  if criticalIndicators.any (fun c => fraud_indicators.contains c) ||
      quality_score < 4/10 || requiredFieldMissing document_type e then false
  else fraud_indicators.length ≤ 2

/-! ## Helper lemmas -/

lemma kycStatus_cases (l m o : ℚ) :
    (kycStatus l m o = "approved" ↔ (8/10 ≤ o ∧ 7/10 ≤ l ∧ 6/10 ≤ m)) ∧
    (kycStatus l m o = "manual_review" ↔
      (¬(8/10 ≤ o ∧ 7/10 ≤ l ∧ 6/10 ≤ m) ∧ 6/10 ≤ o)) ∧
    (kycStatus l m o = "rejected" ↔
      (¬(8/10 ≤ o ∧ 7/10 ≤ l ∧ 6/10 ≤ m) ∧ o < 6/10)) := by
  unfold kycStatus
  split_ifs with h1 h2
  · exact ⟨iff_of_true rfl h1,
      iff_of_false (by decide) (fun h => h.1 h1),
      iff_of_false (by decide) (fun h => h.1 h1)⟩
  · exact ⟨iff_of_false (by decide) h1,
      iff_of_true rfl ⟨h1, h2⟩,
      iff_of_false (by decide) (fun h => absurd h2 (not_le.mpr h.2))⟩
  · exact ⟨iff_of_false (by decide) h1,
      iff_of_false (by decide) (fun h => h2 h.2),
      iff_of_true rfl ⟨h1, not_le.mp h2⟩⟩

lemma pyMax_foldl_spec (key : String → ℕ) (xs : List String) :
    ∀ a : String,
      (xs.foldl (fun best y => if key best < key y then y else best) a) ∈ a :: xs ∧
      key a ≤ key (xs.foldl (fun best y => if key best < key y then y else best) a) ∧
      ∀ y ∈ xs,
        key y ≤ key (xs.foldl (fun best y => if key best < key y then y else best) a) := by
  induction xs with
  | nil =>
    intro a
    exact ⟨List.mem_cons_self a [], le_refl _, by simp⟩
  | cons x xs ih =>
    intro a
    simp only [List.foldl_cons]
    obtain ⟨hmem, hle, hall⟩ := ih (if key a < key x then x else a)
    have hstep : key a ≤ key (if key a < key x then x else a) ∧
        key x ≤ key (if key a < key x then x else a) := by
      by_cases hax : key a < key x
      · simp only [if_pos hax]
        exact ⟨le_of_lt hax, le_refl _⟩
      · simp only [if_neg hax]
        exact ⟨le_refl _, not_lt.mp hax⟩
    refine ⟨?_, le_trans hstep.1 hle, ?_⟩
    · rcases List.mem_cons.mp hmem with h | h
      · rw [h]
        by_cases hax : key a < key x
        · simp only [if_pos hax]
          exact List.mem_cons_of_mem a (List.mem_cons_self x xs)
        · simp only [if_neg hax]
          exact List.mem_cons_self a (x :: xs)
      · exact List.mem_cons_of_mem a (List.mem_cons_of_mem x h)
    · intro y hy
      rcases List.mem_cons.mp hy with h | h
      · rw [h]
        exact le_trans hstep.2 hle
      · exact hall y h

lemma pyMaxBy_spec (key : String → ℕ) (l : List String) (h : l ≠ []) :
    ∃ x, pyMaxBy key l = some x ∧ x ∈ l ∧ ∀ y ∈ l, key y ≤ key x := by
  cases l with
  | nil => exact absurd rfl h
  | cons a xs =>
    obtain ⟨hmem, hle, hall⟩ := pyMax_foldl_spec key xs a
    refine ⟨_, rfl, hmem, ?_⟩
    intro y hy
    rcases List.mem_cons.mp hy with h2 | h2
    · rw [h2]; exact hle
    · exact hall y h2

/-! ## Claim theorems -/

/-- C1: for all analyzer scores and fraud score in `[0,1]`, the fusion engine
computes `overall_score = 0.3*liveness + 0.4*match + 0.2*quality +
0.1*(1 - fraud)` and classifies, in order: approved iff `overall ≥ 0.8 ∧
liveness ≥ 0.7 ∧ match ≥ 0.6`, else manual_review iff `overall ≥ 0.6`, else
rejected; at liveness 0.85, match 0.75, quality 0.9, fraud 0 the overall
score is 0.835 and the status is approved. -/
theorem C1_fusion_score_and_status (l m d f : ℚ)
    (hl : 0 ≤ l ∧ l ≤ 1) (hm : 0 ≤ m ∧ m ≤ 1)
    (hd : 0 ≤ d ∧ d ≤ 1) (hf : 0 ≤ f ∧ f ≤ 1) :
    overallScore l m d f
      = 3/10 * l + 4/10 * m + 2/10 * d + 1/10 * (1 - f) ∧
    (kycStatus l m (overallScore l m d f) = "approved" ↔
      (8/10 ≤ overallScore l m d f ∧ 7/10 ≤ l ∧ 6/10 ≤ m)) ∧
    (kycStatus l m (overallScore l m d f) = "manual_review" ↔
      (¬(8/10 ≤ overallScore l m d f ∧ 7/10 ≤ l ∧ 6/10 ≤ m) ∧
        6/10 ≤ overallScore l m d f)) ∧
    (kycStatus l m (overallScore l m d f) = "rejected" ↔
      (¬(8/10 ≤ overallScore l m d f ∧ 7/10 ≤ l ∧ 6/10 ≤ m) ∧
        overallScore l m d f < 6/10)) ∧
    overallScore (85/100) (75/100) (9/10) 0 = 835/1000 ∧
    kycStatus (85/100) (75/100) (overallScore (85/100) (75/100) (9/10) 0)
      = "approved" := by
  obtain ⟨hs1, hs2, hs3⟩ := kycStatus_cases l m (overallScore l m d f)
  refine ⟨by unfold overallScore; ring, hs1, hs2, hs3, ?_, ?_⟩
  · norm_num [overallScore]
  · norm_num [overallScore, kycStatus]

/-- Witness for C1 at liveness 0.85, match 0.75, quality 0.9, fraud 0. -/
theorem C1_fusion_score_and_status_witness :
    overallScore (85/100) (75/100) (9/10) 0 = 835/1000 ∧
    kycStatus (85/100) (75/100) (overallScore (85/100) (75/100) (9/10) 0)
      = "approved" := by
  have h := C1_fusion_score_and_status (85/100) (75/100) (9/10) 0
    (by norm_num) (by norm_num) (by norm_num) (by norm_num)
  exact ⟨h.2.2.2.2.1, h.2.2.2.2.2⟩

/-- C8: the spoof-type label is a priority chain evaluated in order with the
first match winning — printed_photo when edge and texture are both below 0.3,
else screen_replay when reflection exceeds 0.1, else mask when color is below
0.3, else 3d_mask when texture and color both exceed 0.8, else none; at
edge 0.2, texture 0.2, reflection 0.05, color 0.9 the label is printed_photo,
not mask. -/
theorem C8_spoof_type_priority (t c e r : ℚ) :
    (detectSpoofType t c e r = some "printed_photo" ↔ (e < 3/10 ∧ t < 3/10)) ∧
    (detectSpoofType t c e r = some "screen_replay" ↔
      (¬(e < 3/10 ∧ t < 3/10) ∧ 1/10 < r)) ∧
    (detectSpoofType t c e r = some "mask" ↔
      (¬(e < 3/10 ∧ t < 3/10) ∧ ¬(1/10 < r) ∧ c < 3/10)) ∧
    (detectSpoofType t c e r = some "3d_mask" ↔
      (¬(e < 3/10 ∧ t < 3/10) ∧ ¬(1/10 < r) ∧ ¬(c < 3/10) ∧
        (8/10 < t ∧ 8/10 < c))) ∧
    (detectSpoofType t c e r = none ↔
      (¬(e < 3/10 ∧ t < 3/10) ∧ ¬(1/10 < r) ∧ ¬(c < 3/10) ∧
        ¬(8/10 < t ∧ 8/10 < c))) ∧
    detectSpoofType (2/10) (9/10) (2/10) (5/100) = some "printed_photo" ∧
    detectSpoofType (2/10) (9/10) (2/10) (5/100) ≠ some "mask" := by
  have hconc : detectSpoofType (2/10) (9/10) (2/10) (5/100) = some "printed_photo" := by
    norm_num [detectSpoofType]
  refine ⟨?_, ?_, ?_, ?_, ?_, hconc, by rw [hconc]; decide⟩
  all_goals
    unfold detectSpoofType
    split_ifs with h1 h2 h3 h4
    all_goals
      first
        | exact iff_of_true rfl (by tauto)
        | exact iff_of_false (by decide) (by tauto)

/-- C2 counterexample: with the CNN model loaded (as it always is after a
successful `_initialize_model`) and a model score of 0.5, the returned
liveness score is the average of the weighted sum and the model score —
0.7 — and not the weighted sum itself, which is 0.9; so the claim that the
returned score equals the weighted sum (not further combined with any other
score) fails. -/
theorem C2_weighted_sum_counterexample :
    livenessWeightedSum
        ⟨1, 1, 1, 0, false, 0, true, 1/2⟩ = 9/10 ∧
    detectLivenessScore
        ⟨1, 1, 1, 0, false, 0, true, 1/2⟩ = 7/10 ∧
    detectLivenessScore
        ⟨1, 1, 1, 0, false, 0, true, 1/2⟩ ≠
      livenessWeightedSum
        ⟨1, 1, 1, 0, false, 0, true, 1/2⟩ := by
  refine ⟨?_, ?_, ?_⟩ <;>
    norm_num [detectLivenessScore, livenessWeightedSum, livenessScoreList,
      livenessWeights, challengeScore]

/-- C2 (amended): the weighted sum of the five detector scores uses the fixed
weights texture 0.25, color 0.20, edge 0.20, (1 - reflection) 0.15,
challenge 0.20; the challenge score defaults to 0.5 when no challenge type
and temporal data are supplied; the returned liveness score is the average of
that weighted sum and the CNN model score when the model is loaded (always,
after successful initialization), and equals the weighted sum only when no
model is loaded; is_live holds iff the returned score is at least 0.7. -/
theorem C2_liveness_score_amended (i : LivenessInputs) :
    livenessWeightedSum i
      = i.texture * (25/100) + i.color * (20/100) + i.edge * (20/100) +
        (1 - i.reflection) * (15/100) + challengeScore i * (20/100) ∧
    (i.challengeProvided = false → challengeScore i = 1/2) ∧
    (i.modelLoaded = true →
      detectLivenessScore i = (livenessWeightedSum i + i.modelScore) / 2) ∧
    (i.modelLoaded = false → detectLivenessScore i = livenessWeightedSum i) ∧
    (detectLivenessIsLive i = true ↔ 7/10 ≤ detectLivenessScore i) := by
  refine ⟨?_, ?_, ?_, ?_, ?_⟩
  · simp only [livenessWeightedSum, livenessScoreList, livenessWeights,
      List.zipWith, List.sum_cons, List.sum_nil]
    ring
  · intro h; simp [challengeScore, h]
  · intro h; simp [detectLivenessScore, h]
  · intro h; simp [detectLivenessScore, h]
  · simp [detectLivenessIsLive]

/-- Witness for C2 (amended) at full detector scores, no challenge input,
model loaded with model score 0.5. -/
theorem C2_liveness_score_amended_witness :
    challengeScore ⟨1, 1, 1, 0, false, 0, true, 1/2⟩ = 1/2 ∧
    detectLivenessScore ⟨1, 1, 1, 0, false, 0, true, 1/2⟩
      = (livenessWeightedSum ⟨1, 1, 1, 0, false, 0, true, 1/2⟩ + 1/2) / 2 :=
  ⟨(C2_liveness_score_amended ⟨1, 1, 1, 0, false, 0, true, 1/2⟩).2.1 rfl,
   (C2_liveness_score_amended ⟨1, 1, 1, 0, false, 0, true, 1/2⟩).2.2.1 rfl⟩

/-- C3: evaluation of the fusion step at the failing input — liveness
completes with `spoof_type = "mask"` and the document analyzer reports no
indicator.  `fraud_indicators.extend` splits the string into its four
characters, so the code computes `fraud_score = min(4/10, 1) = 0.4`, whereas
the claim (one indicator per spoof type) gives `min(1/10, 1) = 0.1`. -/
theorem C3_fraud_score_code_eval :
    fuseResults
        ⟨9/10, true, some 1, some (some "mask"), none, none⟩
        ⟨8/10, true, some 1, none, none⟩
        ⟨true, some (9/10), some [], none⟩
      = some { liveness_score := 9/10, match_score := 8/10, fraud_score := 2/5,
               document_quality_score := 9/10, overall_score := 83/100,
               status := "approved", reasons := ["m", "a", "s", "k"],
               confidence := 1 } ∧
    fraudScoreOfCount 1 = 1/10 ∧
    (2/5 : ℚ) ≠ 1/10 := by
  refine ⟨?_, ?_, ?_⟩
  · norm_num [fuseResults, extendSpoof, charIndicators, fraudScoreOfCount,
      overallScore, kycStatus, min_def]
  · norm_num [fraudScoreOfCount, min_def]
  · norm_num

/-- C4: in the fusion step, `fraud_indicators.extend(spoof_type)` is applied
to the liveness result's `spoof_type` value directly: when the key holds
Python `None` (no spoof detected) the step raises and no verdict is produced;
when it holds a string of length n, each of the n characters is appended as a
separate one-character indicator and counted in the fraud score. -/
theorem C4_spoof_type_extension (l : PyLivenessResult) (f : PyFaceMatchResult)
    (d : PyDocumentResult) (s : String) :
    (l.spoof_type = some none → fuseResults l f d = none) ∧
    (l.spoof_type = some (some s) →
      ∃ v, fuseResults l f d = some v ∧
        v.reasons = charIndicators s ++ d.fraud_indicators.getD [] ∧
        (charIndicators s).length = s.length ∧
        (∀ ind ∈ charIndicators s, ind.length = 1) ∧
        v.fraud_score
          = fraudScoreOfCount (s.length + (d.fraud_indicators.getD []).length)) := by
  constructor
  · intro h
    simp [fuseResults, h, extendSpoof]
  · intro h
    have hlen : (charIndicators s).length = s.length := by
      unfold charIndicators
      rw [List.length_map]
      rfl
    have hfu : fuseResults l f d = some
        { liveness_score := l.liveness_score
          match_score := f.match_score
          fraud_score := fraudScoreOfCount
            ((charIndicators s ++ d.fraud_indicators.getD []).length)
          document_quality_score := d.quality_score.getD 0
          overall_score := overallScore l.liveness_score f.match_score
            (d.quality_score.getD 0)
            (fraudScoreOfCount
              ((charIndicators s ++ d.fraud_indicators.getD []).length))
          status := kycStatus l.liveness_score f.match_score
            (overallScore l.liveness_score f.match_score
              (d.quality_score.getD 0)
              (fraudScoreOfCount
                ((charIndicators s ++ d.fraud_indicators.getD []).length)))
          reasons := charIndicators s ++ d.fraud_indicators.getD []
          confidence := min (l.confidence.getD 0) (f.confidence.getD 0) } := by
      unfold fuseResults
      rw [h]
      rfl
    refine ⟨_, hfu, rfl, hlen, ?_, ?_⟩
    · intro ind hind
      obtain ⟨c, _, rfl⟩ := List.mem_map.mp hind
      rfl
    · simp [List.length_append, hlen]

/-- Witness for C4: liveness with `spoof_type = None` yields no verdict;
liveness with `spoof_type = "mask"` and one document indicator yields a
verdict whose fraud score counts 4 + 1 indicators. -/
theorem C4_spoof_type_extension_witness :
    fuseResults ⟨85/100, true, some 1, some none, none, none⟩
        ⟨8/10, true, some 1, none, none⟩
        ⟨true, some (9/10), some [], none⟩
      = none ∧
    (∃ v, fuseResults ⟨85/100, true, some 1, some (some "mask"), none, none⟩
        ⟨8/10, true, some 1, none, none⟩
        ⟨true, some (9/10), some ["blurry_image"], none⟩
      = some v ∧
      v.reasons = charIndicators "mask" ++
        (some ["blurry_image"] : Option (List String)).getD [] ∧
      (charIndicators "mask").length = String.length "mask" ∧
      (∀ ind ∈ charIndicators "mask", ind.length = 1) ∧
      v.fraud_score = fraudScoreOfCount (String.length "mask" +
        ((some ["blurry_image"] : Option (List String)).getD []).length)) :=
  ⟨(C4_spoof_type_extension ⟨85/100, true, some 1, some none, none, none⟩
      ⟨8/10, true, some 1, none, none⟩
      ⟨true, some (9/10), some [], none⟩ "mask").1 rfl,
   (C4_spoof_type_extension ⟨85/100, true, some 1, some (some "mask"), none, none⟩
      ⟨8/10, true, some 1, none, none⟩
      ⟨true, some (9/10), some ["blurry_image"], none⟩ "mask").2 rfl⟩

/-- C5: evaluation at the failing input — the face-match task raises and is
replaced by the degraded dictionary (score 0, no confidence key, indicator
`verification_failed`), while liveness completes normally with
`spoof_type = None`; the fusion step then raises
(`fraud_indicators.extend(None)`) and `verify_kyc` answers with an
`HTTPException` instead of a verdict. -/
theorem C5_degraded_no_verdict_code_eval :
    degradedFaceMatch.match_score = 0 ∧
    degradedFaceMatch.confidence = none ∧
    degradedFaceMatch.fraud_indicators = some ["verification_failed"] ∧
    fuseResults ⟨85/100, true, some (9/10), some none, none, none⟩
        degradedFaceMatch
        ⟨true, some (9/10), some [], none⟩
      = none := by
  refine ⟨rfl, rfl, rfl, ?_⟩
  simp [fuseResults, extendSpoof]

/-- C6 counterexample: the error result of the liveness analyzer carries an
error yet has no indicator list at all — in particular its indicators do not
include verification_failed — refuting the invariant as stated. -/
theorem C6_error_invariant_counterexample :
    (livenessErrorResult "boom").error = some "boom" ∧
    (livenessErrorResult "boom").fraud_indicators = none ∧
    ((livenessErrorResult "boom").fraud_indicators.getD []).contains
        "verification_failed" = false :=
  ⟨rfl, rfl, rfl⟩

/-- C6 (amended): error-carrying analyzer results have score 0 and
confidence 0 (the document analyzer's error result omits the quality-score
key, read as 0 downstream), but only the document analyzer's error result
includes the indicator verification_failed; the liveness and face-match
error results carry no indicator list. -/
theorem C6_error_results_amended (msg : String) :
    (livenessErrorResult msg).liveness_score = 0 ∧
    (livenessErrorResult msg).confidence = some 0 ∧
    (livenessErrorResult msg).error = some msg ∧
    (livenessErrorResult msg).fraud_indicators = none ∧
    (faceMatchErrorResult msg).match_score = 0 ∧
    (faceMatchErrorResult msg).confidence = some 0 ∧
    (faceMatchErrorResult msg).error = some msg ∧
    (faceMatchErrorResult msg).fraud_indicators = none ∧
    (documentErrorResult msg).is_valid = false ∧
    (documentErrorResult msg).quality_score = none ∧
    (documentErrorResult msg).error = some msg ∧
    ((documentErrorResult msg).fraud_indicators.getD []).contains
        "verification_failed" = true :=
  ⟨rfl, rfl, rfl, rfl, rfl, rfl, rfl, rfl, rfl, rfl, rfl, rfl⟩

/-- C7 counterexample: all extracted fields present, no fraud indicator,
quality 0.5, type id_card, and a date of birth parsing to a future time —
the code declares the document invalid while the claim declares it valid. -/
theorem C7_validate_document_counterexample :
    validateDocument ⟨true, true, DobField.parsed 5⟩ [] (1/2) "id_card" 0
      = false ∧
    claimedValidDocument ⟨true, true, DobField.parsed 5⟩ [] (1/2) "id_card"
      = true := by
  constructor
  · norm_num [validateDocument, criticalIndicators, requiredFieldMissing,
      documentPatternFields, dobInFuture]
  · norm_num [claimedValidDocument, criticalIndicators, requiredFieldMissing,
      documentPatternFields]

/-- C7 (amended): the document is valid iff no critical indicator is present,
the quality score is at least 0.4, no required field among name and
document_number for the detected type is absent, the extracted date of birth
(when present and parseable) is not in the future, and at most two fraud
indicators are present. -/
theorem C7_validate_document_amended (e : ExtractedData) (ind : List String)
    (q : ℚ) (t : String) (now : ℤ) :
    validateDocument e ind q t now = true ↔
      ((∀ c ∈ criticalIndicators, c ∉ ind) ∧ 4/10 ≤ q ∧
        requiredFieldMissing t e = false ∧
        (∀ d, e.dob = DobField.parsed d → d ≤ now) ∧
        ind.length ≤ 2) := by
  have hdobiff : dobInFuture e.dob now = false ↔
      (∀ d, e.dob = DobField.parsed d → d ≤ now) := by
    cases hdob : e.dob with
    | absent => simp [dobInFuture]
    | unparseable => simp [dobInFuture]
    | parsed t0 => simp [dobInFuture, not_lt]
  unfold validateDocument
  split_ifs with h1 h2 h3 h4
  · refine iff_of_false (by simp) ?_
    rintro ⟨hc, -⟩
    obtain ⟨c, hcmem, hcin⟩ := List.any_eq_true.mp h1
    exact hc c hcmem (List.elem_iff.mp hcin)
  · exact iff_of_false (by simp) (fun h => absurd h.2.1 (not_le.mpr h2))
  · exact iff_of_false (by simp)
      (fun h => by rw [h.2.2.1] at h3; exact Bool.false_ne_true h3)
  · refine iff_of_false (by simp) ?_
    rintro ⟨-, -, -, hdle, -⟩
    rw [hdobiff.mpr hdle] at h4
    exact Bool.false_ne_true h4
  · have hcrit : ∀ c ∈ criticalIndicators, c ∉ ind := fun c hcmem hcin =>
      h1 (List.any_eq_true.mpr ⟨c, hcmem, List.elem_iff.mpr hcin⟩)
    have hreq : requiredFieldMissing t e = false := by
      revert h3
      cases requiredFieldMissing t e <;> simp
    have hdle : ∀ d, e.dob = DobField.parsed d → d ≤ now := by
      apply hdobiff.mp
      revert h4
      cases dobInFuture e.dob now <;> simp
    simp only [decide_eq_true_eq]
    exact ⟨fun hl => ⟨hcrit, not_lt.mp h2, hreq, hdle, hl⟩,
      fun h => h.2.2.2.2⟩

/-- C9 counterexample: for the all-zero detector score list the anti-spoof
module reports confidence 0 (the mean of the scores), while the
variance-based formula gives 1; the claim that the same formula yields the
anti-spoof module's confidence fails. -/
theorem C9_confidence_counterexample :
    antiSpoofConfidence [0, 0, 0, 0, 0] = 0 ∧
    1 - min (listVariance [0, 0, 0, 0, 0] * 5) 1 = 1 ∧
    (0 : ℚ) ≠ 1 := by
  refine ⟨?_, ?_, by norm_num⟩
  · norm_num [antiSpoofConfidence, listMean]
  · norm_num [listVariance, listMean, min_def]

/-- C9 (amended): for every nonempty list of detector scores the liveness
ensemble confidence equals `1 - min(5 * variance, 1)` (the clamping `max`
with 0 in the code is redundant), it is exactly 1 when all scores are equal
and for a single score; the anti-spoof module's reported confidence is
instead the mean of its detector scores. -/
theorem C9_confidence_amended (xs : List ℚ) (hne : xs ≠ []) :
    calculateConfidence xs = 1 - min (listVariance xs * 5) 1 ∧
    (∀ c : ℚ, (∀ x ∈ xs, x = c) → calculateConfidence xs = 1) ∧
    (∀ x : ℚ, calculateConfidence [x] = 1) ∧
    antiSpoofConfidence xs = xs.sum / xs.length := by
  have hmax : ∀ ys : List ℚ,
      calculateConfidence ys = 1 - min (listVariance ys * 5) 1 := by
    intro ys
    have h1 : min (listVariance ys * 5) 1 ≤ 1 := min_le_right _ _
    unfold calculateConfidence
    rw [max_eq_left (by linarith)]
  have hconst : ∀ (ys : List ℚ) (c : ℚ), ys ≠ [] → (∀ x ∈ ys, x = c) →
      calculateConfidence ys = 1 := by
    intro ys c hys hall
    have hlen : (0 : ℚ) < ys.length := by
      have := List.length_pos.mpr hys
      exact_mod_cast this
    have hsum : ys.sum = (ys.length : ℚ) * c := by
      rw [List.sum_eq_card_nsmul ys c hall, nsmul_eq_mul]
    have hmean : listMean ys = c := by
      rw [listMean, hsum, mul_comm, mul_div_assoc, div_self (ne_of_gt hlen),
        mul_one]
    have hvar : listVariance ys = 0 := by
      rw [listVariance]
      have : (ys.map fun x => (x - listMean ys) ^ 2).sum = 0 := by
        apply List.sum_eq_zero
        intro y hy
        obtain ⟨x, hx, rfl⟩ := List.mem_map.mp hy
        rw [hmean, hall x hx, sub_self]
        ring
      rw [this, zero_div]
    rw [hmax ys, hvar]
    norm_num
  refine ⟨hmax xs, fun c hc => hconst xs c hne hc, ?_, rfl⟩
  intro x
  exact hconst [x] x (List.cons_ne_nil x []) (by intro y hy; simpa using hy)

/-- Witness for C9 (amended) at the score list `[0, 1]`. -/
theorem C9_confidence_amended_witness :
    calculateConfidence [(0 : ℚ), 1]
      = 1 - min (listVariance [(0 : ℚ), 1] * 5) 1 :=
  (C9_confidence_amended [0, 1] (List.cons_ne_nil 0 [1])).1

/-- C10 counterexample: with the print-attack and screen-replay detectors
both flagged, the two labels tie at frequency one, and a Python set
iteration order enumerating screen_replay first — a legal order, since set
iteration order is unspecified — makes the code return screen_replay; the
claimed tie-break (first occurrence in detector-list order) requires
printed_photo. -/
theorem C10_label_tie_counterexample :
    List.Perm ["screen_replay", "printed_photo"]
      (["printed_photo", "screen_replay"] : List String).dedup ∧
    aggregateSpoofLabel ["printed_photo", "screen_replay"]
      ["screen_replay", "printed_photo"] = some "screen_replay" ∧
    claimedAggregateLabel ["printed_photo", "screen_replay"]
      = some "printed_photo" ∧
    (some "screen_replay" : Option String) ≠ some "printed_photo" := by
  refine ⟨?_, rfl, rfl, by decide⟩
  have hd : (["printed_photo", "screen_replay"] : List String).dedup
      = ["printed_photo", "screen_replay"] := by
    decide
  rw [hd]
  exact List.Perm.swap _ _ _

/-- C10 (amended): when no outcome is flagged the aggregate label is none;
otherwise the label is an indicator of maximal frequency selected by
scanning the Python set of indicators in its (unspecified) iteration order,
so with several distinct flagged labels — all frequencies being one — the
choice is not guaranteed to be the first occurrence in detector-list
order. -/
theorem C10_aggregate_label_amended (indicators setOrder : List String) :
    (indicators = [] → aggregateSpoofLabel indicators setOrder = none) ∧
    (setOrder.Perm indicators.dedup → indicators ≠ [] →
      ∃ lbl, aggregateSpoofLabel indicators setOrder = some lbl ∧
        lbl ∈ indicators ∧
        ∀ m ∈ indicators, indicators.count m ≤ indicators.count lbl) := by
  constructor
  · intro h
    simp [aggregateSpoofLabel, h]
  · intro hperm hne
    have hso : setOrder ≠ [] := by
      intro h0
      rw [h0] at hperm
      have hd : indicators.dedup = [] := (List.Perm.nil_eq hperm).symm
      exact hne ((List.dedup_eq_nil indicators).mp hd)
    obtain ⟨x, hx, hmem, hall⟩ :=
      pyMaxBy_spec (fun l => indicators.count l) setOrder hso
    refine ⟨x, ?_, ?_, ?_⟩
    · have hie : indicators.isEmpty = false := by
        cases indicators with
        | nil => exact absurd rfl hne
        | cons a l => rfl
      rw [aggregateSpoofLabel, hie]
      simpa using hx
    · exact List.mem_dedup.mp (hperm.mem_iff.mp hmem)
    · intro m hm
      exact hall m (hperm.mem_iff.mpr (List.mem_dedup.mpr hm))

/-- Witness for C10 (amended) with the single flagged label mask. -/
theorem C10_aggregate_label_amended_witness :
    ∃ lbl, aggregateSpoofLabel ["mask"] ["mask"] = some lbl ∧
      lbl ∈ ["mask"] ∧
      ∀ m ∈ ["mask"],
        List.count m ["mask"] ≤ List.count lbl ["mask"] :=
  (C10_aggregate_label_amended ["mask"] ["mask"]).2
    (by rw [show (["mask"] : List String).dedup = ["mask"] from by decide])
    (by simp)

end KycVerifier
